import Mathlib

/-!
Shallow embedding of the selenium-recorder-mcp core pipeline
(src/event_processor.py, src/storage.py, src/cdp_recorder.py, src/server.py)
together with theorems settling the frozen claims about it.

Python dictionaries whose keys may be absent are modelled with `Option`
fields; a value read with `dict.get(key, default)` becomes `Option.getD`.
Attribute tokens are modelled as strings (the code applies `str` before
masking and the CDP wire format delivers strings).
-/

namespace SelRec

deriving instance DecidableEq for Except

/-- Whether the first character list is an initial segment of the second. -/
def isPrefixL : List Char → List Char → Bool
  | [], _ => true
  | _ :: _, [] => false
  | a :: as, b :: bs => a == b && isPrefixL as bs

/-- Whether the first character list occurs contiguously inside the second. -/
def isInfixL (needle : List Char) : List Char → Bool
  | [] => needle.isEmpty
  | b :: bs => isPrefixL needle (b :: bs) || isInfixL needle bs

/-- Substring containment, the Lean counterpart of the Python `needle in haystack`. -/
def containsStr (haystack needle : String) : Bool :=
  isInfixL needle.toList haystack.toList

/-- Lexicographic strict comparison on code points, the Python `<` on `str`. -/
def charListLt : List Char → List Char → Bool
  | [], [] => false
  | [], _ :: _ => true
  | _ :: _, [] => false
  | a :: as, b :: bs => if a < b then true else if b < a then false else charListLt as bs

/-- the Python `<` on strings. -/
def strLt (a b : String) : Bool := charListLt a.toList b.toList

/-- the Python `<=` on strings (total order: `a <= b` iff not `b < a`). -/
def strLe (a b : String) : Bool := !(strLt b a)

/-- ASCII lowercasing, the Python `str.lower` on the character data the
recorder handles (defined over the character list so the kernel can
evaluate it). -/
def lowerStr (s : String) : String :=
  String.mk (s.data.map Char.toLower)

/-- the Python `" ".join(tokens)`. -/
def joinSpace : List String → String
  | [] => ""
  | [t] => t
  | t :: rest => t ++ " " ++ joinSpace rest

/-- The fixed redaction token. -/
def MASKED_TOKEN : String := "***MASKED***"

/-- `EventProcessor._mask_value`: empty values are returned unchanged
(`if not value: return value`), anything else becomes the redaction token. -/
def maskValue (value : String) : String :=
  if value = "" then value else MASKED_TOKEN

/-- The sensitive-attribute-name rule shared by
`EventProcessor._process_attribute_modified` and
`EventProcessor._mask_node_attributes`: the lowercased name is exactly
"value", or contains "password", or contains "secret". -/
def sensitiveAttrName (name : String) : Bool :=
  let n := lowerStr name
  n == "value" || containsStr n "password" || containsStr n "secret"

/-- A raw DOM node description: `nodeName` and the flat positional
attribute token list, each absent when the corresponding dict key is
absent; `masked` models the `_masked` key (absent = `false`). -/
structure NodeSnapshot where
  nodeName : Option String := none
  attributes : Option (List String) := none
  masked : Bool := false
deriving DecidableEq, Inhabited

/-- An event payload dict: keys `name`, `value`, `nodes`, `_masked`,
each `Option` when the key may be absent. -/
structure EventData where
  name : Option String := none
  value : Option String := none
  nodes : Option (List NodeSnapshot) := none
  masked : Bool := false
deriving DecidableEq, Inhabited

/-- A normalized event envelope: `type`, `timestamp`, `data`. -/
structure Event where
  type : Option String := none
  timestamp : Option String := none
  data : EventData := {}
deriving DecidableEq, Inhabited

/-- All nine literal strings an optional-quote selector pattern can match:
the compiled regex is a literal of the form input-bracket-KEY-OP, an
optional quote character, WORD, an optional quote character and a closing
bracket, so a search succeeds iff one of the nine quote combinations
occurs as a substring. -/
def patVariants (key op word : String) : List String :=
  (["", "'", "\x22"].map fun q1 =>
    ["", "'", "\x22"].map fun q2 =>
      "input[" ++ key ++ op ++ q1 ++ word ++ q2 ++ "]").flatten

/-- `re.search` of one compiled default selector pattern against a string:
true iff some quote-variant literal is a substring. -/
def regexSearch (key op word : String) (s : String) : Bool :=
  (patVariants key op word).any fun p => containsStr s p

/-- `EventProcessor.DEFAULT_SENSITIVE_SELECTORS`, compiled: search each of
the six default patterns. -/
def matchesAnySensitivePattern (s : String) : Bool :=
  regexSearch "type" "=" "password" s ||
  regexSearch "name" "*=" "password" s ||
  regexSearch "name" "*=" "passwd" s ||
  regexSearch "id" "*=" "password" s ||
  regexSearch "name" "*=" "secret" s ||
  regexSearch "name" "*=" "token" s

/-- `EventProcessor._is_sensitive_field` with the default pattern set. -/
def isSensitiveField (node : NodeSnapshot) : Bool :=
  let nodeName := lowerStr (node.nodeName.getD "")
  if nodeName != "input" then false
  else
    let attributes := node.attributes.getD []
    if attributes.isEmpty then false
    else matchesAnySensitivePattern (lowerStr (joinSpace attributes))

/-- The indexed loop body of `EventProcessor._mask_node_attributes`:
walk the token list with its running index `i`; at odd `i`, if the token
at `i - 1` has a sensitive name, the value token is passed through
`maskValue`. `attrs` is the whole original list (for the `attributes[i-1]`
lookup). -/
def maskTokensAux (attrs : List String) : Nat → List String → List String
  | _, [] => []
  | i, a :: rest =>
    (if i % 2 = 1 && sensitiveAttrName (attrs.getD (i - 1) "") then maskValue a else a)
      :: maskTokensAux attrs (i + 1) rest

/-- The masked attribute list built by `EventProcessor._mask_node_attributes`. -/
def maskTokens (attrs : List String) : List String :=
  maskTokensAux attrs 0 attrs

/-- `EventProcessor._mask_node_attributes`: no `attributes` key means the
node is returned untouched; otherwise the tokens are rewritten and the
`_masked` marker is set unconditionally. -/
def maskNodeAttributes (node : NodeSnapshot) : NodeSnapshot :=
  match node.attributes with
  | none => node
  | some attrs => { node with attributes := some (maskTokens attrs), masked := true }

/-- `EventProcessor._process_attribute_modified`. -/
def processAttributeModified (e : Event) : Event :=
  let attrName := lowerStr (e.data.name.getD "")
  if attrName == "value" || containsStr attrName "password" || containsStr attrName "secret" then
    { e with data := { e.data with value := some (maskValue (e.data.value.getD "")), masked := true } }
  else e

/-- `EventProcessor._process_set_child_nodes`. -/
def processSetChildNodes (e : Event) : Event :=
  let nodes := e.data.nodes.getD []
  if nodes.isEmpty then e
  else
    let processedNodes := nodes.map fun n =>
      if isSensitiveField n then maskNodeAttributes n else n
    { e with data := { e.data with nodes := some processedNodes } }

/-- `EventProcessor.process_event`: dispatch by event kind. -/
def processEvent (e : Event) : Event :=
  if e.type == some "dom_attribute_modified" then processAttributeModified e
  else if e.type == some "dom_set_child_nodes" then processSetChildNodes e
  else if e.type == some "dom_character_data_modified" then e
  else e

/-- `EventProcessor.process_events`. -/
def processEvents (events : List Event) : List Event :=
  events.map processEvent

/-- Insertion-ordered counter update, the Python `d[k] = d.get(k, 0) + 1`
on an insertion-ordered dict. -/
def bump (m : List (String × Nat)) (k : String) : List (String × Nat) :=
  match m with
  | [] => [(k, 1)]
  | (k', v) :: rest => if k' == k then (k', v + 1) :: rest else (k', v) :: bump rest k

/-- the Python `s.startswith(p)`. -/
def startsWithStr (s p : String) : Bool := isPrefixL p.data s.data

/-- The per-type/per-kind counts `analyze_events` accumulates. -/
structure Summary where
  total_events : Nat := 0
  event_types : List (String × Nat) := []
  console_logs : Nat := 0
  js_errors : Nat := 0
  dom_mutations : Nat := 0
  clicks : Nat := 0
  masked_events : Nat := 0
deriving DecidableEq, Inhabited

/-- One iteration of the `EventProcessor.analyze_events` loop: the
masked-event check reads `event.get("data", {}).get("_masked")`, i.e. the
marker on the `data` dict of the event itself. -/
def analyzeStep (acc : Summary) (e : Event) : Summary :=
  let ty := e.type.getD "unknown"
  let acc1 := { acc with event_types := bump acc.event_types ty }
  let acc2 :=
    if ty == "console_log" then { acc1 with console_logs := acc1.console_logs + 1 }
    else if ty == "js_error" then { acc1 with js_errors := acc1.js_errors + 1 }
    else if ty == "click" then { acc1 with clicks := acc1.clicks + 1 }
    else if startsWithStr ty "dom_" then { acc1 with dom_mutations := acc1.dom_mutations + 1 }
    else acc1
  if e.data.masked then { acc2 with masked_events := acc2.masked_events + 1 } else acc2

/-- `EventProcessor.analyze_events`. -/
def analyzeEvents (events : List Event) : Summary :=
  events.foldl analyzeStep { total_events := events.length }

/-- Characters of the validator class, hex digits a-f, 0-9 and the hyphen. -/
def isHexHyphen (c : Char) : Bool :=
  ('a' ≤ c && c ≤ 'f') || ('0' ≤ c && c ≤ '9') || c == '-'

/-- the Python `re.match` of `^[a-f0-9-]{36}$` as a Boolean, shared by
`RecordingStorage._validate_session_id` and the three server handlers.
Since `$` in Python also matches just before one trailing newline, the
accepted strings are exactly 36 class characters optionally followed by a
single final newline. -/
def validSessionId (s : String) : Bool :=
  let cs := s.data
  (cs.length == 36 && cs.all isHexHyphen) ||
  (cs.length == 37 && (cs.take 36).all isHexHyphen && cs.getLast? == some '\n')

/-- A parsed recording document. The `metadata` sub-dict is flattened into
the `saved_at` and `event_count` fields. The same shape models the
`session_data` dict handed to `save_recording`. -/
structure Recording where
  session_id : Option String := none
  url : Option String := none
  start_time : Option String := none
  end_time : Option String := none
  events : List Event := []
  saved_at : Option String := none
  event_count : Option Nat := none
deriving DecidableEq, Inhabited

/-- One file of the recordings directory: name, byte size, and parsed
content, `none` modelling a JSON parse failure. -/
structure StoredFile where
  name : String
  size : Nat := 0
  doc : Option Recording := none
deriving DecidableEq, Inhabited

/-- The recordings directory contents, in directory-enumeration order. -/
abbrev FileSystem := List StoredFile

/-- Whether the first character list is a terminal segment of the second. -/
def isSuffixL (needle hay : List Char) : Bool := isPrefixL needle.reverse hay.reverse

/-- `fnmatch` of the pattern `pre ++ "*" ++ suf` against a file name:
the name carries the prefix and the suffix around a possibly empty
middle. -/
def globStar (pre suf fn : String) : Bool :=
  isPrefixL pre.data fn.data && isSuffixL suf.data fn.data &&
    decide (fn.length ≥ pre.length + suf.length)

/-- The glob pattern `f"{session_id}_*.json"` used by `load`, the filtered
load and `delete`. -/
def globMatches (sessionId fn : String) : Bool :=
  globStar (sessionId ++ "_") ".json" fn

/-- `RecordingStorage.load_recording`: validate the id, glob, parse the
first match; a parse failure of that file raises (modelled as `.error`). -/
def loadRecording (fs : FileSystem) (sessionId : String) : Except String (Option Recording) :=
  if !validSessionId sessionId then .error "Invalid session_id format"
  else
    match (fs.filter fun f => globMatches sessionId f.name).head? with
    | none => .ok none
    | some f =>
      match f.doc with
      | none => .error "JSONDecodeError"
      | some doc => .ok (some doc)

/-- `event.get("type", "unknown")` counted over the full event list —
the breakdown `load_filtered_recording` computes before any filtering. -/
def breakdownOf (events : List Event) : List (String × Nat) :=
  events.foldl (fun m e => bump m (e.type.getD "unknown")) []

/-- The `filters_applied` dict: a key is present exactly when the
corresponding filter branch ran. -/
structure FiltersApplied where
  event_types : Option (List String) := none
  from_timestamp : Option String := none
  to_timestamp : Option String := none
  offset : Option Nat := none
  limit : Option Nat := none
deriving DecidableEq, Inhabited

/-- Dict truthiness of `filters_applied` (empty dict is falsy). -/
def FiltersApplied.isEmptyFA (fa : FiltersApplied) : Bool :=
  fa.event_types.isNone && fa.from_timestamp.isNone && fa.to_timestamp.isNone &&
    fa.offset.isNone && fa.limit.isNone

/-- The keyword arguments of `load_filtered_recording`, with their Python
defaults. -/
structure LoadOpts where
  event_types : Option (List String) := none
  limit : Option Nat := none
  offset : Nat := 0
  from_timestamp : Option String := none
  to_timestamp : Option String := none
  include_events : Bool := true
deriving DecidableEq, Inhabited

/-- Python truthiness of an optional list argument. -/
def truthyList (l : Option (List String)) : Bool :=
  match l with
  | some (_ :: _) => true
  | _ => false

/-- Python truthiness of an optional string argument. -/
def truthyStr (s : Option String) : Bool :=
  match s with
  | some t => !(t == "")
  | none => false

/-- `e.get("type") in event_types` (an absent type is `None`, which is in
no string list). -/
def typeMem (e : Event) (tys : List String) : Bool :=
  match e.type with
  | some ty => tys.contains ty
  | none => false

/-- The dict `load_filtered_recording` returns, with `Option` for the keys
that only one of the two response shapes carries. -/
structure FilteredRecording where
  session_id : Option String := none
  url : Option String := none
  start_time : Option String := none
  end_time : Option String := none
  file_path : String := ""
  events : Option (List Event) := none
  total_events : Nat := 0
  returned_events : Option Nat := none
  event_type_breakdown : List (String × Nat) := []
  filters_applied : Option FiltersApplied := none
  message : Option String := none
  original_saved_at : Option String := none
deriving DecidableEq, Inhabited

/-- The hint message of the metadata-only response. -/
def NO_EVENTS_HINT : String :=
  "No events returned. Use filters (limit, event_types, offset, timestamps) to retrieve events."

/-- The body of `RecordingStorage.load_filtered_recording` once the
document is loaded; `filePath` is the glob result used for the
`file_path` field. -/
def loadFilteredDoc (recording : Recording) (filePath : String) (opts : LoadOpts) :
    FilteredRecording :=
  let events0 := recording.events
  let totalEvents := events0.length
  let breakdown := breakdownOf events0
  if opts.include_events = false then
    { session_id := recording.session_id, url := recording.url,
      start_time := recording.start_time, end_time := recording.end_time,
      file_path := filePath, total_events := totalEvents,
      event_type_breakdown := breakdown,
      original_saved_at := recording.saved_at,
      message := some NO_EVENTS_HINT }
  else
    let events1 := if truthyList opts.event_types
      then events0.filter fun e => typeMem e (opts.event_types.getD []) else events0
    let fa1 : FiltersApplied := if truthyList opts.event_types
      then { event_types := opts.event_types } else {}
    let events2 := if truthyStr opts.from_timestamp
      then events1.filter fun e => strLe (opts.from_timestamp.getD "") (e.timestamp.getD "")
      else events1
    let fa2 := if truthyStr opts.from_timestamp
      then { fa1 with from_timestamp := opts.from_timestamp } else fa1
    let events3 := if truthyStr opts.to_timestamp
      then events2.filter fun e => strLe (e.timestamp.getD "") (opts.to_timestamp.getD "")
      else events2
    let fa3 := if truthyStr opts.to_timestamp
      then { fa2 with to_timestamp := opts.to_timestamp } else fa2
    let events4 := if opts.offset > 0 then events3.drop opts.offset else events3
    let fa4 := if opts.offset > 0 then { fa3 with offset := some opts.offset } else fa3
    let events5 := match opts.limit with
      | some l => events4.take l
      | none => events4
    let fa5 := match opts.limit with
      | some l => { fa4 with limit := some l }
      | none => fa4
    { session_id := recording.session_id, url := recording.url,
      start_time := recording.start_time, end_time := recording.end_time,
      file_path := filePath, events := some events5,
      total_events := totalEvents, returned_events := some events5.length,
      event_type_breakdown := breakdown,
      filters_applied := if fa5.isEmptyFA then none else some fa5,
      original_saved_at := recording.saved_at }

/-- `RecordingStorage.load_filtered_recording`. -/
def loadFilteredRecording (fs : FileSystem) (sessionId : String) (opts : LoadOpts) :
    Except String (Option FilteredRecording) := do
  match ← loadRecording fs sessionId with
  | none => .ok none
  | some recording =>
    let filePath := (((fs.filter fun f => globMatches sessionId f.name).head?).map
      fun f => f.name).getD ""
    .ok (some (loadFilteredDoc recording filePath opts))

/-- Size of one node in the crude serialized-size estimate. -/
def nodeSize (n : NodeSnapshot) : Nat :=
  (n.nodeName.getD "").length + ((n.attributes.getD []).map String.length).sum + 24

/-- Size of one event in the crude serialized-size estimate. -/
def eventSize (e : Event) : Nat :=
  (e.type.getD "").length + (e.timestamp.getD "").length +
    (e.data.name.getD "").length + (e.data.value.getD "").length +
    ((e.data.nodes.getD []).map nodeSize).sum + 64

/-- Stand-in for `len(json.dumps(recording_data, indent=2).encode())`:
only its comparison against the 50 MiB ceiling matters and no claim
depends on the exact value. -/
def recordingSize (r : Recording) : Nat :=
  128 + (r.events.map eventSize).sum

/-- The file name `f"{session_id}_{timestamp}.json"` built by
`save_recording`. -/
def fileNameOf (sessionId stamp : String) : String :=
  sessionId ++ "_" ++ stamp ++ ".json"

/-- The glob pattern string `f"{session_id}_*.json"` built by `load`,
the filtered load and `delete`; `globMatches` is its matching relation. -/
def globPatternOf (sessionId : String) : String :=
  sessionId ++ "_*.json"

/-- Shape of a `%Y%m%d_%H%M%S` timestamp: digits and underscores. -/
def tsOk (ts : String) : Bool :=
  ts.data.all fun c => c.isDigit || c == '_'

/-- `RecordingStorage.save_recording`. `nowStamp` is the
`%Y%m%d_%H%M%S`-formatted clock used in the file name and `nowIso` the
ISO `saved_at` stamp, both passed in explicitly. Returns the saved file
name and the new directory contents. -/
def saveRecording (fs : FileSystem) (sessionData : Recording) (url : Option String)
    (nowStamp nowIso : String) : Except String (String × FileSystem) :=
  match sessionData.session_id with
  | none => .error "Session data must contain session_id"
  | some sid =>
    if sid = "" then .error "Session data must contain session_id"
    else if !validSessionId sid then .error "Invalid session_id format"
    else
      let filename := fileNameOf sid nowStamp
      let recordingData : Recording :=
        { session_id := some sid, url := url,
          start_time := sessionData.start_time, end_time := sessionData.end_time,
          events := sessionData.events,
          saved_at := some nowIso, event_count := some sessionData.events.length }
      if recordingSize recordingData > 50 * 1024 * 1024 then .error "Recording too large"
      else .ok (filename,
        fs ++ [{ name := filename, size := recordingSize recordingData, doc := some recordingData }])

/-- `RecordingStorage.delete_recording`. Returns the deletion flag and the
new directory contents. -/
def deleteRecording (fs : FileSystem) (sessionId : String) : Except String (Bool × FileSystem) :=
  if !validSessionId sessionId then .error "Invalid session_id format"
  else
    let matching := fs.filter fun f => globMatches sessionId f.name
    if matching.isEmpty then .ok (false, fs)
    else .ok (true, fs.filter fun f => !globMatches sessionId f.name)

/-- One entry of the `list_recordings` result. -/
structure RecEntry where
  session_id : Option String := none
  url : Option String := none
  start_time : Option String := none
  event_count : Nat := 0
  filepath : String := ""
deriving DecidableEq, Inhabited

/-- The entry `list_recordings` builds for one file, `none` when the file
is skipped: not matching the `*.json` glob, above the 10 MiB read
ceiling, or failing to parse. -/
def listEntry (f : StoredFile) : Option RecEntry :=
  if !globStar "" ".json" f.name then none
  else if f.size > 10 * 1024 * 1024 then none
  else match f.doc with
    | none => none
    | some d => some { session_id := d.session_id, url := d.url, start_time := d.start_time,
                       event_count := d.event_count.getD 0, filepath := f.name }

/-- The sort key `x.get("start_time", "")`: the built entry always carries
the `start_time` key, so the `""` default never applies; when the stored
value is `None` the sort compares `None` and raises, so this `getD`
branch is unreachable from `listRecordings`. -/
def keyOrEmpty (e : RecEntry) : String := e.start_time.getD ""

/-- Stable descending insertion by start-time key: a later element lands
after every already-placed element whose key is not strictly smaller. -/
def insertDesc (x : RecEntry) : List RecEntry → List RecEntry
  | [] => [x]
  | y :: ys => if strLt (keyOrEmpty y) (keyOrEmpty x) then x :: y :: ys else y :: insertDesc x ys

/-- `sorted(entries, key=..., reverse=True)` in the all-keys-comparable
case: a stable descending sort. -/
def sortDescByStart (l : List RecEntry) : List RecEntry :=
  l.foldl (fun acc x => insertDesc x acc) []

/-- `RecordingStorage.list_recordings`: build entries (skipping oversized
and unparsable files), then sort by `x.get("start_time", "")` descending.
Cthe Python sort compares every key at least once when two or more entries
are present, and comparing `None` (a document without `start_time`)
raises `TypeError`, so the model returns an error exactly then. -/
def listRecordings (fs : FileSystem) : Except String (List RecEntry) :=
  let entries := fs.filterMap listEntry
  if decide (entries.length ≥ 2) && entries.any fun e => e.start_time.isNone
  then .error "TypeError"
  else .ok (sortDescByStart entries)

/-- The `CDPRecorder` capture state the ingestion path touches. -/
structure RecorderState where
  sessionId : Option String := none
  events : List Event := []
  maxEvents : Nat := 10000
  startTime : Option String := none
deriving DecidableEq, Inhabited

/-- `CDPRecorder._add_event`: refuse once the event count has reached
`max_events`, otherwise append one wrapped event. -/
def addEvent (st : RecorderState) (eventType : String) (now : String) (data : EventData) :
    Except String RecorderState :=
  if st.events.length ≥ st.maxEvents then .error "Event limit reached"
  else .ok { st with
    events := st.events ++ [{ type := some eventType, timestamp := some now, data := data }] }

/-- `CDPRecorder.stop`. -/
def recorderStop (st : RecorderState) (endTime : String) : Except String Recording :=
  match st.sessionId with
  | none => .error "No active recording session."
  | some sid =>
    .ok { session_id := some sid, start_time := st.startTime,
          end_time := some endTime, events := st.events }

/-- `server.stop_recording`: argument and id-shape validation, then stop,
mask, save. -/
def stopRecordingTool (recorders : List (String × RecorderState)) (fs : FileSystem)
    (sessionIdArg : Option String) (nowStamp nowIso endTime : String) :
    Except String (String × FileSystem) :=
  match sessionIdArg with
  | none => .error "session_id is required"
  | some sid =>
    if sid = "" then .error "session_id is required"
    else if !validSessionId sid then .error "Invalid session_id format"
    else
      match (recorders.filter fun p => p.1 == sid).head? with
      | none => .error "No active recording found"
      | some p => do
        let sessionData ← recorderStop p.2 endTime
        let processed := processEvents sessionData.events
        saveRecording fs { sessionData with events := processed } none nowStamp nowIso

/-- The arguments of the `get_recording` tool. -/
structure GetArgs where
  session_id : Option String := none
  event_types : Option (List String) := none
  limit : Option Nat := none
  offset : Nat := 0
  from_timestamp : Option String := none
  to_timestamp : Option String := none
deriving DecidableEq, Inhabited

/-- `server.get_recording`: validation, filter detection, then the
filtered load with `include_events` set iff some filter was supplied. -/
def getRecordingTool (fs : FileSystem) (args : GetArgs) : Except String FilteredRecording :=
  match args.session_id with
  | none => .error "session_id is required"
  | some sid =>
    if sid = "" then .error "session_id is required"
    else if !validSessionId sid then .error "Invalid session_id format"
    else
      let hasFilters := truthyList args.event_types || args.limit.isSome ||
        truthyStr args.from_timestamp || truthyStr args.to_timestamp || decide (args.offset > 0)
      do
        match ← loadFilteredRecording fs sid
          { event_types := args.event_types, limit := args.limit, offset := args.offset,
            from_timestamp := args.from_timestamp, to_timestamp := args.to_timestamp,
            include_events := hasFilters } with
        | none => .error "Recording not found"
        | some r => .ok r

/-- `server.analyze_recording`: validation, load, analyze. -/
def analyzeRecordingTool (fs : FileSystem) (sessionIdArg : Option String) :
    Except String Summary :=
  match sessionIdArg with
  | none => .error "session_id is required"
  | some sid =>
    if sid = "" then .error "session_id is required"
    else if !validSessionId sid then .error "Invalid session_id format"
    else do
      match ← loadRecording fs sid with
      | none => .error "Recording not found"
      | some r => .ok (analyzeEvents r.events)

/-- The claim-side per-token description of node masking: an odd-indexed
token is replaced by the redaction token exactly when the preceding name
token is sensitive and the token itself is nonempty; all other tokens are
kept verbatim. -/
def maskTokensSpecAux (attrs : List String) : Nat → List String → List String
  | _, [] => []
  | i, a :: rest =>
    (if i % 2 = 1 && sensitiveAttrName (attrs.getD (i - 1) "") && !(a == "")
      then MASKED_TOKEN else a)
      :: maskTokensSpecAux attrs (i + 1) rest

/-- `maskTokensSpec` read from index 0. -/
def maskTokensSpec (attrs : List String) : List String := maskTokensSpecAux attrs 0 attrs

/-- Claim-side type-membership filter: applied only when a nonempty type
list was supplied. -/
def filterTypes (tys : Option (List String)) (events : List Event) : List Event :=
  if truthyList tys then events.filter fun e => typeMem e (tys.getD []) else events

/-- Claim-side lower timestamp bound: `timestamp >= fromTimestamp`. -/
def filterFrom (fromTs : Option String) (events : List Event) : List Event :=
  if truthyStr fromTs then events.filter fun e => strLe (fromTs.getD "") (e.timestamp.getD "")
  else events

/-- Claim-side upper timestamp bound: `timestamp <= toTimestamp`. -/
def filterTo (toTs : Option String) (events : List Event) : List Event :=
  if truthyStr toTs then events.filter fun e => strLe (e.timestamp.getD "") (toTs.getD "")
  else events

/-- Claim-side pagination skip. -/
def applyOffset (offset : Nat) (events : List Event) : List Event :=
  if offset > 0 then events.drop offset else events

/-- Claim-side truncation. -/
def applyLimit (limit : Option Nat) (events : List Event) : List Event :=
  match limit with
  | some l => events.take l
  | none => events

/-- The filters a call supplied, in the Python-truthiness sense the code
tests: a nonempty type list, a nonempty timestamp, a positive offset, a
non-null limit. -/
def suppliedFilters (opts : LoadOpts) : FiltersApplied :=
  { event_types := if truthyList opts.event_types then opts.event_types else none,
    from_timestamp := if truthyStr opts.from_timestamp then opts.from_timestamp else none,
    to_timestamp := if truthyStr opts.to_timestamp then opts.to_timestamp else none,
    offset := if opts.offset > 0 then some opts.offset else none,
    limit := opts.limit }

/-- Whether the attribute-modification masking branch fires for an event:
kind `dom_attribute_modified` with a sensitive attribute name. -/
def attrMaskTriggered (e : Event) : Bool :=
  e.type == some "dom_attribute_modified" && sensitiveAttrName (e.data.name.getD "")

/-- Descending order between listing entries on the sort key. -/
def entryGe (a b : RecEntry) : Prop := strLe (keyOrEmpty b) (keyOrEmpty a) = true

/-- The attribute-modification event refuting C1: sensitive name, empty value. -/
def c1Event : Event :=
  { type := some "dom_attribute_modified",
    data := { name := some "password", value := some "" } }

/-- A sensitive attribute-modification event with a nonempty value. -/
def c1GoodEvent : Event :=
  { type := some "dom_attribute_modified",
    data := { name := some "password", value := some "hunter2" } }

/-- The same payload under a non-attribute event kind. -/
def c1OtherEvent : Event :=
  { type := some "dom_attribute_modified",
    data := { name := some "style", value := some "hunter2" } }

/-- The sensitive node refuting C2: its value token is empty. -/
def c2Node : NodeSnapshot :=
  { nodeName := some "input", attributes := some ["x", "input[type=password]", "value", ""] }

/-- The snapshot event carrying `c2Node`. -/
def c2Event : Event :=
  { type := some "dom_set_child_nodes", data := { nodes := some [c2Node] } }

/-- A sensitive node whose value token is nonempty. -/
def c2GoodNode : NodeSnapshot :=
  { nodeName := some "input", attributes := some ["x", "input[type=password]", "value", "hunter2"] }

/-- The snapshot event carrying `c2GoodNode`. -/
def c2GoodEvent : Event :=
  { type := some "dom_set_child_nodes", data := { nodes := some [c2GoodNode] } }

/-- A recorder capped at two events, already full. -/
def c4Full : RecorderState :=
  { maxEvents := 2, events := [{ type := some "click" }, { type := some "click" }] }

/-- A recorder capped at two events, holding one. -/
def c4Part : RecorderState :=
  { maxEvents := 2, events := [{ type := some "click" }] }

/-- Thirty-six `a` characters followed by one newline: accepted by the
validator though it is not of the 36-character shape. -/
def badId : String := "aaaaaaaaaaaaaaaaaaaaaaaaaaaaaaaaaaaa\n"

/-- Thirty-six `a` characters: a validator-accepted session id. -/
def goodId : String := "aaaaaaaaaaaaaaaaaaaaaaaaaaaaaaaaaaaa"

/-- Three sample stored events: two clicks around one console log. -/
def sampleEvents : List Event :=
  [{ type := some "click", timestamp := some "2024-01-01T00:00:01" },
   { type := some "console_log", timestamp := some "2024-01-01T00:00:02" },
   { type := some "click", timestamp := some "2024-01-01T00:00:03" }]

/-- A sample stored recording document. -/
def sampleRecording : Recording :=
  { session_id := some goodId, url := some "http://example.test",
    start_time := some "2024-01-01T00:00:00", end_time := some "2024-01-01T00:00:05",
    events := sampleEvents, saved_at := some "2024-01-01T00:00:06" }

/-- A stored file holding the sample recording under a valid session id. -/
def sampleFile : StoredFile :=
  { name := fileNameOf goodId "20240101_000000", size := 100, doc := some sampleRecording }

/-- A filtered load: clicks only, skip one, take one. -/
def c6Opts : LoadOpts := { event_types := some ["click"], limit := some 1, offset := 1 }

/-- A metadata-only load. -/
def c7Opts : LoadOpts := { include_events := false }

/-- A stored document with a start time of 2024-01-02. -/
def c9GoodA : StoredFile :=
  { name := "aaaaaaaaaaaaaaaaaaaaaaaaaaaaaaaaaaaa_20240102_000000.json", size := 10,
    doc := some { session_id := some goodId, url := some "http://a.test",
                  start_time := some "2024-01-02T00:00:00", event_count := some 1 } }

/-- A stored document with a later start time of 2024-01-03. -/
def c9GoodB : StoredFile :=
  { name := "aaaaaaaaaaaaaaaaaaaaaaaaaaaaaaaaaaaa_20240101_000000.json", size := 10,
    doc := some { session_id := some goodId, url := some "http://b.test",
                  start_time := some "2024-01-03T00:00:00", event_count := some 2 } }

/-- A parsable stored document with no start time. -/
def c9BadA : StoredFile :=
  { name := "bbbbbbbbbbbbbbbbbbbbbbbbbbbbbbbbbbbb_20240101_000001.json", size := 10,
    doc := some { session_id := some goodId } }

/-- Another parsable stored document with no start time. -/
def c9BadB : StoredFile :=
  { name := "cccccccccccccccccccccccccccccccccccc_20240101_000002.json", size := 10,
    doc := some { session_id := some goodId } }

theorem charListLt_irrefl : ∀ x : List Char, charListLt x x = false := by
  intro x
  induction x with
  | nil => rfl
  | cons a as ih =>
    unfold charListLt
    rw [if_neg (lt_irrefl a), if_neg (lt_irrefl a)]
    exact ih

theorem charListLt_trans : ∀ x y z : List Char,
    charListLt x y = true → charListLt y z = true → charListLt x z = true := by
  intro x
  induction x with
  | nil =>
    intro y z hxy hyz
    cases y with
    | nil => simp [charListLt] at hxy
    | cons b bs =>
      cases z with
      | nil => simp [charListLt] at hyz
      | cons c cs => simp [charListLt]
  | cons a as ih =>
    intro y z hxy hyz
    cases y with
    | nil => simp [charListLt] at hxy
    | cons b bs =>
      cases z with
      | nil => simp [charListLt] at hyz
      | cons c cs =>
        unfold charListLt at hxy hyz ⊢
        by_cases hab : a < b
        · by_cases hbc : b < c
          · rw [if_pos (lt_trans hab hbc)]
          · by_cases hcb : c < b
            · rw [if_neg hbc, if_pos hcb] at hyz
              exact absurd hyz (by simp)
            · have hbceq : b = c := le_antisymm (not_lt.mp hcb) (not_lt.mp hbc)
              subst hbceq
              rw [if_pos hab]
        · by_cases hba : b < a
          · rw [if_neg hab, if_pos hba] at hxy
            exact absurd hxy (by simp)
          · have habeq : a = b := le_antisymm (not_lt.mp hba) (not_lt.mp hab)
            subst habeq
            rw [if_neg (lt_irrefl a), if_neg (lt_irrefl a)] at hxy
            by_cases hac : a < c
            · rw [if_pos hac]
            · by_cases hca : c < a
              · rw [if_neg hac, if_pos hca] at hyz
                exact absurd hyz (by simp)
              · have haceq : a = c := le_antisymm (not_lt.mp hca) (not_lt.mp hac)
                subst haceq
                rw [if_neg (lt_irrefl a), if_neg (lt_irrefl a)] at hyz
                rw [if_neg (lt_irrefl a), if_neg (lt_irrefl a)]
                exact ih bs cs hxy hyz

theorem charListLt_conn : ∀ x y : List Char,
    charListLt x y = false → charListLt y x = false → x = y := by
  intro x
  induction x with
  | nil =>
    intro y h1 _
    cases y with
    | nil => rfl
    | cons b bs => simp [charListLt] at h1
  | cons a as ih =>
    intro y h1 h2
    cases y with
    | nil => simp [charListLt] at h2
    | cons b bs =>
      unfold charListLt at h1 h2
      by_cases hab : a < b
      · rw [if_pos hab] at h1
        exact absurd h1 (by simp)
      · by_cases hba : b < a
        · rw [if_pos hba] at h2
          exact absurd h2 (by simp)
        · have habeq : a = b := le_antisymm (not_lt.mp hba) (not_lt.mp hab)
          subst habeq
          rw [if_neg (lt_irrefl a), if_neg (lt_irrefl a)] at h1 h2
          rw [ih bs h1 h2]

theorem charListLt_asymm (x y : List Char) (h : charListLt x y = true) :
    charListLt y x = false := by
  by_contra hne
  have h2 : charListLt y x = true := by
    revert hne
    cases charListLt y x <;> simp
  have h3 := charListLt_trans x y x h h2
  rw [charListLt_irrefl] at h3
  exact absurd h3 (by simp)

theorem strLt_imp_strLe (a b : String) (h : strLt a b = true) : strLe a b = true := by
  unfold strLe
  unfold strLt at h ⊢
  rw [charListLt_asymm _ _ h]
  rfl

theorem strLe_of_not_strLt (a b : String) (h : strLt b a = false) : strLe a b = true := by
  unfold strLe
  rw [h]
  rfl

theorem strLe_trans (a b c : String) (h1 : strLe a b = true) (h2 : strLe b c = true) :
    strLe a c = true := by
  unfold strLe strLt at h1 h2 ⊢
  simp only [Bool.not_eq_true'] at h1 h2
  simp only [Bool.not_eq_true']
  by_contra hca
  have hca' : charListLt c.toList a.toList = true := by
    revert hca
    cases charListLt c.toList a.toList <;> simp
  cases hbc : charListLt b.toList c.toList with
  | true =>
    have hba := charListLt_trans _ _ _ hbc hca'
    rw [hba] at h1
    exact absurd h1 (by simp)
  | false =>
    cases hcb : charListLt c.toList b.toList with
    | true => rw [hcb] at h2; exact absurd h2 (by simp)
    | false =>
      have hbceq : b.toList = c.toList := charListLt_conn _ _ hbc hcb
      rw [← hbceq] at hca'
      rw [hca'] at h1
      exact absurd h1 (by simp)

theorem maskTokensAux_eq_specAux (attrs : List String) :
    ∀ i l, maskTokensAux attrs i l = maskTokensSpecAux attrs i l := by
  intro i l
  induction l generalizing i with
  | nil => rfl
  | cons a rest ih =>
    unfold maskTokensAux maskTokensSpecAux
    rw [ih]
    congr 1
    by_cases h1 : i % 2 = 1
    · by_cases h2 : sensitiveAttrName ((attrs[i - 1]?).getD "") = true
      · by_cases ha : a = ""
        · subst ha
          simp [h1, h2, maskValue]
        · simp [h1, h2, ha, maskValue]
      · simp [h1, h2]
    · simp [h1]

theorem sensitive_has_attributes (n : NodeSnapshot) (h : isSensitiveField n = true) :
    ∃ a l, n.attributes = some (a :: l) := by
  cases hn : n.attributes with
  | none => simp [isSensitiveField, hn] at h
  | some l =>
    cases l with
    | nil => simp [isSensitiveField, hn] at h
    | cons a as => exact ⟨a, as, by simp [hn]⟩

theorem analyzeStep_masked (acc : Summary) (e : Event) :
    (analyzeStep acc e).masked_events =
      acc.masked_events + (if e.data.masked then 1 else 0) := by
  unfold analyzeStep
  cases hm : e.data.masked <;>
    simp [hm, apply_ite (fun s => Summary.masked_events s)]

theorem analyzeEvents_masked_count (events : List Event) :
    (analyzeEvents events).masked_events =
      (events.filter fun e => e.data.masked).length := by
  have hgen : ∀ (l : List Event) (acc : Summary),
      (l.foldl analyzeStep acc).masked_events =
        acc.masked_events + (l.filter fun e => e.data.masked).length := by
    intro l
    induction l with
    | nil => intro acc; simp
    | cons e rest ih =>
      intro acc
      rw [List.foldl_cons, ih, analyzeStep_masked]
      cases hm : e.data.masked
      all_goals simp [hm]
      all_goals omega
  unfold analyzeEvents
  rw [hgen]
  simp

theorem processEvent_masked (e : Event) :
    (processEvent e).data.masked = (e.data.masked || attrMaskTriggered e) := by
  unfold processEvent attrMaskTriggered
  by_cases ht : (e.type == some "dom_attribute_modified") = true
  · simp only [ht, if_true, Bool.true_and]
    unfold processAttributeModified sensitiveAttrName
    by_cases hc : (lowerStr (e.data.name.getD "") == "value" ||
        containsStr (lowerStr (e.data.name.getD "")) "password" ||
        containsStr (lowerStr (e.data.name.getD "")) "secret") = true
    · simp [hc]
    · simp only [Bool.not_eq_true] at hc
      simp [hc]
  · have ht' : (e.type == some "dom_attribute_modified") = false := by
      revert ht
      cases e.type == some "dom_attribute_modified" <;> simp
    simp only [ht', Bool.false_eq_true, if_false, Bool.false_and, Bool.or_false]
    by_cases h2 : (e.type == some "dom_set_child_nodes") = true
    · simp only [h2, if_true]
      unfold processSetChildNodes
      by_cases h3 : (e.data.nodes.getD []).isEmpty = true
      · simp [h3]
      · simp only [Bool.not_eq_true] at h3
        simp [h3]
    · have h2' : (e.type == some "dom_set_child_nodes") = false := by
        revert h2
        cases e.type == some "dom_set_child_nodes" <;> simp
      simp [h2']

theorem valid_chars (s : String) (h : validSessionId s = true) :
    s.data.all (fun c => isHexHyphen c || c == '\n') = true := by
  unfold validSessionId at h
  simp only [Bool.or_eq_true, Bool.and_eq_true, beq_iff_eq] at h
  rcases h with ⟨_, hall⟩ | ⟨⟨hlen', htake⟩, hlast⟩
  · rw [List.all_eq_true] at hall ⊢
    intro c hc
    simp [hall c hc]
  · rw [List.all_eq_true]
    intro c hc
    have hsplit := List.take_append_drop 36 s.data
    rw [← hsplit] at hc
    rcases List.mem_append.mp hc with hmem | hmem
    · rw [List.all_eq_true] at htake
      simp [htake c hmem]
    · have hdlen : (s.data.drop 36).length = 1 := by
        rw [List.length_drop, hlen']
      have hdne : s.data.drop 36 ≠ [] := by
        intro hnil
        rw [hnil] at hdlen
        simp at hdlen
      have hlast2 : (s.data.drop 36).getLast? = some '\n' := by
        have hga := List.getLast?_append_of_ne_nil (s.data.take 36) hdne
        rw [hsplit] at hga
        rw [← hga]
        exact hlast
      cases hd : s.data.drop 36 with
      | nil => exact absurd hd hdne
      | cons d rest =>
        rw [hd] at hdlen
        simp at hdlen
        rw [hd, hdlen] at hlast2
        simp at hlast2
        rw [hd, hdlen] at hmem
        simp at hmem
        simp [hmem, hlast2]

theorem sid_char_ne_slash (c : Char) (h : (isHexHyphen c || c == '\n') = true) :
    (c == '/') = false := by
  by_cases hc : c = '/'
  · subst hc
    exact absurd h (by decide)
  · simp [hc]

theorem ts_char_ne_slash (c : Char) (h : (c.isDigit || c == '_') = true) :
    (c == '/') = false := by
  by_cases hc : c = '/'
  · subst hc
    exact absurd h (by decide)
  · simp [hc]

theorem valid_length (s : String) (h : validSessionId s = true) : 36 ≤ s.length := by
  unfold validSessionId at h
  simp only [Bool.or_eq_true, Bool.and_eq_true, beq_iff_eq] at h
  rcases h with ⟨hlen, _⟩ | ⟨⟨hlen, _⟩, _⟩ <;>
    simp [String.length, hlen]

theorem insertDesc_perm (x : RecEntry) (l : List RecEntry) :
    (insertDesc x l).Perm (x :: l) := by
  induction l with
  | nil => exact List.Perm.refl _
  | cons y ys ih =>
    unfold insertDesc
    by_cases h : strLt (keyOrEmpty y) (keyOrEmpty x) = true
    · rw [if_pos h]
    · rw [if_neg h]
      exact (List.Perm.cons y ih).trans (List.Perm.swap x y ys)

theorem insertDesc_mem (z x : RecEntry) (l : List RecEntry)
    (h : z ∈ insertDesc x l) : z = x ∨ z ∈ l := by
  have := (insertDesc_perm x l).mem_iff.mp h
  simpa using this

theorem insertDesc_pairwise (x : RecEntry) (l : List RecEntry)
    (hl : l.Pairwise entryGe) : (insertDesc x l).Pairwise entryGe := by
  induction l with
  | nil => simp [insertDesc, entryGe]
  | cons y ys ih =>
    rw [List.pairwise_cons] at hl
    obtain ⟨hy, hys⟩ := hl
    unfold insertDesc
    by_cases h : strLt (keyOrEmpty y) (keyOrEmpty x) = true
    · rw [if_pos h]
      rw [List.pairwise_cons]
      constructor
      · intro z hz
        rcases List.mem_cons.mp hz with hz | hz
        · subst hz
          exact strLt_imp_strLe _ _ h
        · exact strLe_trans _ _ _ (hy z hz) (strLt_imp_strLe _ _ h)
      · rw [List.pairwise_cons]
        exact ⟨hy, hys⟩
    · rw [if_neg h]
      rw [List.pairwise_cons]
      constructor
      · intro z hz
        rcases insertDesc_mem z x ys hz with hz | hz
        · subst hz
          have hlt : strLt (keyOrEmpty y) (keyOrEmpty z) = false := by
            revert h
            cases strLt (keyOrEmpty y) (keyOrEmpty z) <;> simp
          exact strLe_of_not_strLt _ _ hlt
        · exact hy z hz
      · exact ih hys

theorem sortDesc_perm_aux : ∀ (l acc : List RecEntry),
    (l.foldl (fun acc x => insertDesc x acc) acc).Perm (acc ++ l) := by
  intro l
  induction l with
  | nil => intro acc; simp
  | cons x xs ih =>
    intro acc
    rw [List.foldl_cons]
    have h1 := ih (insertDesc x acc)
    have h2 : (insertDesc x acc ++ xs).Perm (acc ++ x :: xs) := by
      have h3 := (insertDesc_perm x acc).append_right xs
      exact h3.trans List.perm_middle.symm
    exact h1.trans h2

theorem sortDesc_pairwise_aux : ∀ (l acc : List RecEntry), acc.Pairwise entryGe →
    (l.foldl (fun acc x => insertDesc x acc) acc).Pairwise entryGe := by
  intro l
  induction l with
  | nil => intro acc h; exact h
  | cons x xs ih =>
    intro acc h
    rw [List.foldl_cons]
    exact ih (insertDesc x acc) (insertDesc_pairwise x acc h)

theorem sortDescByStart_perm (l : List RecEntry) : (sortDescByStart l).Perm l := by
  unfold sortDescByStart
  have h := sortDesc_perm_aux l []
  simpa using h

theorem sortDescByStart_pairwise (l : List RecEntry) :
    (sortDescByStart l).Pairwise entryGe := by
  unfold sortDescByStart
  exact sortDesc_pairwise_aux l [] (by simp)

theorem loadFilteredRecording_ok (fs : FileSystem) (sid : String) (recording : Recording)
    (opts : LoadOpts) (hload : loadRecording fs sid = .ok (some recording)) :
    loadFilteredRecording fs sid opts = .ok (some (loadFilteredDoc recording
      ((((fs.filter fun f => globMatches sid f.name).head?).map fun f => f.name).getD "")
      opts)) := by
  simp only [loadFilteredRecording, hload]
  rfl

/-- Claim C1 counterexample: a dom_attribute_modified event whose attribute name is "password" but whose value is the empty string keeps the empty value (the stored value is not the redaction token) even though the masked marker is set, refuting the claim that every matching event stores the fixed token. -/
theorem C1_counterexample :
    sensitiveAttrName "password" = true ∧
    (processEvent c1Event).data.masked = true ∧
    (processEvent c1Event).data.value = some "" ∧
    ¬ (processEvent c1Event).data.value = some MASKED_TOKEN := by decide

/-- Claim C1 (amended): for every dom_attribute_modified event whose payload carries no marker, a sensitive attribute name (lowercased: exactly "value", or containing "password" or "secret") makes the Masking Engine store the fixed redaction token when the incoming value is nonempty, keep an empty or absent value unchanged, and set the masked marker to true; for every other attribute name the event is returned unchanged and the marker stays absent. -/
theorem C1_attribute_masking (e : Event)
    (htype : e.type = some "dom_attribute_modified")
    (hraw : e.data.masked = false) :
    (sensitiveAttrName (e.data.name.getD "") = true →
      (processEvent e).data.masked = true ∧
      (processEvent e).data.value =
        some (if e.data.value.getD "" = "" then e.data.value.getD "" else MASKED_TOKEN)) ∧
    (sensitiveAttrName (e.data.name.getD "") = false →
      processEvent e = e ∧ (processEvent e).data.masked = false) := by
  have hpe : processEvent e = processAttributeModified e := by
    simp [processEvent, htype]
  refine ⟨fun hs => ?_, fun hs => ?_⟩
  · have hcond : (lowerStr (e.data.name.getD "") == "value" ||
        containsStr (lowerStr (e.data.name.getD "")) "password" ||
        containsStr (lowerStr (e.data.name.getD "")) "secret") = true := by
      simpa [sensitiveAttrName] using hs
    rw [hpe]
    simp [processAttributeModified, hcond, maskValue]
  · have hcond : (lowerStr (e.data.name.getD "") == "value" ||
        containsStr (lowerStr (e.data.name.getD "")) "password" ||
        containsStr (lowerStr (e.data.name.getD "")) "secret") = false := by
      simpa [sensitiveAttrName] using hs
    rw [hpe]
    simp [processAttributeModified, hcond, hraw]

/-- Witness for C1: a "password" attribute with the nonempty value "hunter2" is stored as the redaction token with the marker set, and a "style" attribute passes through unchanged. -/
theorem C1_witness :
    ((processEvent c1GoodEvent).data.masked = true ∧
      (processEvent c1GoodEvent).data.value = some MASKED_TOKEN) ∧
    (processEvent c1OtherEvent = c1OtherEvent ∧
      (processEvent c1OtherEvent).data.masked = false) := by
  constructor
  · have h := (C1_attribute_masking c1GoodEvent rfl rfl).1 (by decide)
    exact ⟨h.1, by rw [h.2]; decide⟩
  · exact (C1_attribute_masking c1OtherEvent rfl rfl).2 (by decide)

/-- Claim C2 counterexample: a node the Detector classifies as sensitive whose odd-indexed value token (preceded by the name token "value") is the empty string keeps that empty token instead of the redaction token, refuting the claim that every such token is replaced. -/
theorem C2_counterexample :
    isSensitiveField c2Node = true ∧
    sensitiveAttrName "value" = true ∧
    ((processEvent c2Event).data.nodes.getD []).map (fun n => n.attributes) =
      [some ["x", "input[type=password]", "value", ""]] ∧
    ¬ (maskNodeAttributes c2Node).attributes =
      some ["x", "input[type=password]", "value", MASKED_TOKEN] := by decide

/-- Claim C2 (amended): in a dom_set_child_nodes event every node the Detector classifies as sensitive is rewritten by maskNodeAttributes and every other node is kept unchanged; on a sensitive node the masked marker is always set, and each odd-indexed attribute token is replaced by the redaction token exactly when its preceding even-indexed name token is sensitive (exactly "value", or containing "password" or "secret", case-insensitive) and the token itself is nonempty, while every other token is preserved verbatim. -/
theorem C2_node_masking (e : Event) (htype : e.type = some "dom_set_child_nodes") :
    ((processEvent e).data.nodes.getD [] =
      (e.data.nodes.getD []).map fun n =>
        if isSensitiveField n then maskNodeAttributes n else n) ∧
    (∀ n : NodeSnapshot, isSensitiveField n = true →
      (maskNodeAttributes n).masked = true ∧
      ∀ attrs, n.attributes = some attrs →
        (maskNodeAttributes n).attributes = some (maskTokensSpec attrs)) := by
  constructor
  · have hpe : processEvent e = processSetChildNodes e := by
      simp [processEvent, htype]
    rw [hpe]
    unfold processSetChildNodes
    cases hn : e.data.nodes.getD [] with
    | nil => simp [hn]
    | cons a as => simp [hn]
  · intro n hs
    obtain ⟨a, l, ha⟩ := sensitive_has_attributes n hs
    constructor
    · simp [maskNodeAttributes, ha]
    · intro attrs hattrs
      simp [maskNodeAttributes, hattrs, maskTokens, maskTokensSpec,
        maskTokensAux_eq_specAux]

/-- Witness for C2: a sensitive node with the nonempty value token "hunter2" after the name token "value" has that token redacted and the marker set. -/
theorem C2_witness :
    (processEvent c2GoodEvent).data.nodes.getD [] = [maskNodeAttributes c2GoodNode] ∧
    (maskNodeAttributes c2GoodNode).masked = true ∧
    (maskNodeAttributes c2GoodNode).attributes =
      some (maskTokensSpec ["x", "input[type=password]", "value", "hunter2"]) ∧
    maskTokensSpec ["x", "input[type=password]", "value", "hunter2"] =
      ["x", "input[type=password]", "value", MASKED_TOKEN] := by
  refine ⟨?_, ?_, ?_, by decide⟩
  · rw [(C2_node_masking c2GoodEvent rfl).1]
    decide
  · exact ((C2_node_masking c2GoodEvent rfl).2 c2GoodNode (by decide)).1
  · exact ((C2_node_masking c2GoodEvent rfl).2 c2GoodNode (by decide)).2 _ rfl

/-- Claim C3 counterexample: the 37-character id of 36 hex characters followed by one newline is accepted by the validator (Python $ also matches before a trailing newline), so load and delete proceed past validation for an id that does not match the fixed 36-character shape, refuting the claim that every such id is rejected. -/
theorem C3_counterexample :
    validSessionId badId = true ∧
    ¬ (badId.data.length = 36 ∧ badId.data.all isHexHyphen = true) ∧
    loadRecording [] badId = .ok none ∧
    deleteRecording [] badId = .ok (false, []) := by decide

/-- Claim C3 (amended): every nonempty session id the shared validator rejects - the accepted set being exactly 36 hex-or-hyphen characters optionally followed by one trailing newline - is refused with the same validation failure by save, load, loadFiltered, delete and by the three transport handlers, uniformly and independently of the file-system state (so before any file-system access); in particular "not-a-uuid" is rejected by all of them. -/
theorem C3_validation (s : String) (h : validSessionId s = false) (hne : s ≠ "") :
    (∀ fs : FileSystem, loadRecording fs s = .error "Invalid session_id format") ∧
    (∀ (fs : FileSystem) (opts : LoadOpts),
      loadFilteredRecording fs s opts = .error "Invalid session_id format") ∧
    (∀ (fs : FileSystem) (sd : Recording) (url : Option String) (ns ni : String),
      sd.session_id = some s →
      saveRecording fs sd url ns ni = .error "Invalid session_id format") ∧
    (∀ fs : FileSystem, deleteRecording fs s = .error "Invalid session_id format") ∧
    (∀ (recs : List (String × RecorderState)) (fs : FileSystem) (ns ni et : String),
      stopRecordingTool recs fs (some s) ns ni et = .error "Invalid session_id format") ∧
    (∀ (fs : FileSystem) (args : GetArgs), args.session_id = some s →
      getRecordingTool fs args = .error "Invalid session_id format") ∧
    (∀ fs : FileSystem,
      analyzeRecordingTool fs (some s) = .error "Invalid session_id format") := by
  have hload : ∀ fs : FileSystem, loadRecording fs s = .error "Invalid session_id format" := by
    intro fs
    simp [loadRecording, h]
  refine ⟨hload, ?_, ?_, ?_, ?_, ?_, ?_⟩
  · intro fs opts
    simp only [loadFilteredRecording, hload fs]
    rfl
  · intro fs sd url ns ni hsid
    simp [saveRecording, hsid, hne, h]
  · intro fs
    simp [deleteRecording, h]
  · intro recs fs ns ni et
    simp [stopRecordingTool, hne, h]
  · intro fs args hsid
    simp [getRecordingTool, hsid, hne, h]
  · intro fs
    simp [analyzeRecordingTool, hne, h]

/-- Witness for C3: the id "not-a-uuid" is rejected with the validation failure by all seven session-id-taking operations. -/
theorem C3_witness :
    validSessionId "not-a-uuid" = false ∧
    loadRecording [] "not-a-uuid" = .error "Invalid session_id format" ∧
    loadFilteredRecording [] "not-a-uuid" {} = .error "Invalid session_id format" ∧
    saveRecording [] { session_id := some "not-a-uuid" } none "x" "y" =
      .error "Invalid session_id format" ∧
    deleteRecording [] "not-a-uuid" = .error "Invalid session_id format" ∧
    stopRecordingTool [] [] (some "not-a-uuid") "x" "y" "z" =
      .error "Invalid session_id format" ∧
    getRecordingTool [] { session_id := some "not-a-uuid" } =
      .error "Invalid session_id format" ∧
    analyzeRecordingTool [] (some "not-a-uuid") = .error "Invalid session_id format" := by
  have h := C3_validation "not-a-uuid" (by decide) (by decide)
  exact ⟨by decide, h.1 [], h.2.1 [] {}, h.2.2.1 [] _ none "x" "y" rfl, h.2.2.2.1 [],
    h.2.2.2.2.1 [] [] "x" "y" "z", h.2.2.2.2.2.1 [] _ rfl, h.2.2.2.2.2.2 []⟩

/-- Claim C4: once the event count of a session has reached the configured maximum (default 10000), the next ingestion raises the resource-limit failure and appends nothing, so a successful ingestion from a state within the cap keeps the count within the cap; every ingestion strictly below the cap appends exactly one wrapped event. -/
theorem C4_event_cap (st : RecorderState) (t now : String) (d : EventData) :
    ({} : RecorderState).maxEvents = 10000 ∧
    (st.events.length = st.maxEvents →
      addEvent st t now d = .error "Event limit reached") ∧
    (st.events.length < st.maxEvents →
      addEvent st t now d = .ok { st with
        events := st.events ++ [{ type := some t, timestamp := some now, data := d }] }) ∧
    (∀ st', st.events.length ≤ st.maxEvents → addEvent st t now d = .ok st' →
      st'.events.length ≤ st.maxEvents ∧ st'.events.length = st.events.length + 1) := by
  refine ⟨rfl, fun hfull => ?_, fun hlt => ?_, fun st' hle hok => ?_⟩
  · simp [addEvent, hfull]
  · simp [addEvent, Nat.not_le.mpr hlt]
  · unfold addEvent at hok
    by_cases hge : st.events.length ≥ st.maxEvents
    · simp [hge] at hok
    · simp [hge] at hok
      have hlen : st'.events.length = st.events.length + 1 := by
        rw [← hok]
        simp
      exact ⟨by omega, hlen⟩

/-- Witness for C4: a recorder capped at two events rejects a third ingestion, a recorder holding one event appends exactly one, and the default cap is 10000. -/
theorem C4_witness :
    addEvent c4Full "click" "t2" {} = .error "Event limit reached" ∧
    addEvent c4Part "click" "t1" {} = .ok { c4Part with
      events := c4Part.events ++ [{ type := some "click", timestamp := some "t1", data := {} }] } ∧
    ({} : RecorderState).maxEvents = 10000 := by
  refine ⟨?_, ?_, (C4_event_cap c4Full "click" "t2" {}).1⟩
  · exact (C4_event_cap c4Full "click" "t2" {}).2.1 (by decide)
  · exact (C4_event_cap c4Part "click" "t1" {}).2.2.1 (by decide)

/-- Claim C5: isSensitive returns false unless nodeName equals "input" case-insensitively, and otherwise returns true exactly when some compiled default sensitive pattern matches the lowercase space-joined string built from all attribute tokens. -/
theorem C5_is_sensitive (n : NodeSnapshot) :
    isSensitiveField n =
      ((lowerStr (n.nodeName.getD "") == "input") &&
        matchesAnySensitivePattern (lowerStr (joinSpace (n.attributes.getD [])))) := by
  simp only [isSensitiveField]
  by_cases h : lowerStr (n.nodeName.getD "") = "input"
  · simp only [h, bne_self_eq_false, Bool.false_eq_true, if_false, beq_self_eq_true,
      Bool.true_and, if_neg]
    by_cases h2 : (n.attributes.getD []) = []
    · simp only [h2, List.isEmpty_nil, if_true]
      have : lowerStr (joinSpace []) = "" := by decide
      simp [joinSpace, this]
      decide
    · simp [List.isEmpty_eq_false_iff_exists_mem]
      cases hl : (n.attributes.getD []) with
      | nil => exact absurd hl h2
      | cons a as => simp [hl]
  · have hb : (lowerStr (n.nodeName.getD "") != "input") = true := by
      simp [bne, h]
    simp [hb, beq_iff_eq, h]

/-- Claim C6: for every stored recording, loadFiltered with includeEvents true returns the stored event sequence filtered strictly in the order type membership, then timestamp at least fromTimestamp, then timestamp at most toTimestamp, then skipping offset items, then truncating to limit items, with returned_events the length of that filtered list, total_events the unfiltered count, and filters_applied recording exactly the filters that were supplied (omitted filters absent, not defaulted; an all-empty filter record is reported as null). -/
theorem C6_filter_pipeline (fs : FileSystem) (sid : String) (recording : Recording)
    (opts : LoadOpts) (hload : loadRecording fs sid = .ok (some recording))
    (h : opts.include_events = true) :
    ∃ doc : FilteredRecording,
      loadFilteredRecording fs sid opts = .ok (some doc) ∧
      doc.events = some (applyLimit opts.limit (applyOffset opts.offset
        (filterTo opts.to_timestamp (filterFrom opts.from_timestamp
          (filterTypes opts.event_types recording.events))))) ∧
      doc.returned_events = some (applyLimit opts.limit (applyOffset opts.offset
        (filterTo opts.to_timestamp (filterFrom opts.from_timestamp
          (filterTypes opts.event_types recording.events))))).length ∧
      doc.total_events = recording.events.length ∧
      doc.filters_applied =
        (if (suppliedFilters opts).isEmptyFA then none else some (suppliedFilters opts)) := by
  refine ⟨_, loadFilteredRecording_ok fs sid recording opts hload, ?_⟩
  cases hl : opts.limit <;>
  by_cases h1 : truthyList opts.event_types = true <;>
  by_cases h2 : truthyStr opts.from_timestamp = true <;>
  by_cases h3 : truthyStr opts.to_timestamp = true <;>
  by_cases h4 : opts.offset > 0 <;>
  simp [loadFilteredDoc, h, hl, h1, h2, h3, h4, filterTypes, filterFrom, filterTo,
    applyOffset, applyLimit, suppliedFilters, FiltersApplied.isEmptyFA]

/-- Witness for C6: filtering a stored three-event recording by type "click" with offset one and limit one returns exactly the last click with the expected counts and applied-filter record. -/
theorem C6_witness :
    ∃ doc : FilteredRecording,
      loadFilteredRecording [sampleFile] goodId c6Opts = .ok (some doc) ∧
      doc.events = some [{ type := some "click", timestamp := some "2024-01-01T00:00:03" }] ∧
      doc.returned_events = some 1 ∧
      doc.total_events = 3 ∧
      doc.filters_applied =
        some { event_types := some ["click"], offset := some 1, limit := some 1 } := by
  obtain ⟨doc, h1, h2, h3, h4, h5⟩ :=
    C6_filter_pipeline [sampleFile] goodId sampleRecording c6Opts (by decide) rfl
  refine ⟨doc, h1, ?_, ?_, ?_, ?_⟩
  · rw [h2]
    decide
  · rw [h3]
    decide
  · rw [h4]
    decide
  · rw [h5]
    decide

/-- Claim C7: for every stored recording, loadFiltered with includeEvents false returns a document with no events key (and no returned_events or filters_applied) - only session metadata, a hint message and the event-type-count breakdown - and the breakdown is always computed over the unfiltered full event sequence for both values of includeEvents. -/
theorem C7_metadata_only (fs : FileSystem) (sid : String) (recording : Recording)
    (opts : LoadOpts) (hload : loadRecording fs sid = .ok (some recording)) :
    ∃ doc : FilteredRecording,
      loadFilteredRecording fs sid opts = .ok (some doc) ∧
      doc.event_type_breakdown = breakdownOf recording.events ∧
      (opts.include_events = false →
        doc.events = none ∧
        doc.returned_events = none ∧
        doc.filters_applied = none ∧
        doc.message = some NO_EVENTS_HINT ∧
        doc.total_events = recording.events.length ∧
        doc.session_id = recording.session_id ∧
        doc.url = recording.url ∧
        doc.start_time = recording.start_time ∧
        doc.end_time = recording.end_time ∧
        doc.original_saved_at = recording.saved_at) := by
  refine ⟨_, loadFilteredRecording_ok fs sid recording opts hload, ?_, ?_⟩
  · by_cases hinc : opts.include_events = false
    · simp [loadFilteredDoc, hinc]
    · have ht : opts.include_events = true := by
        revert hinc
        cases opts.include_events <;> simp
      simp [loadFilteredDoc, ht]
  · intro hinc
    simp [loadFilteredDoc, hinc]

/-- Witness for C7: a metadata-only load of the stored three-event recording carries no events key, the full breakdown and the hint message. -/
theorem C7_witness :
    ∃ doc : FilteredRecording,
      loadFilteredRecording [sampleFile] goodId c7Opts = .ok (some doc) ∧
      doc.events = none ∧
      doc.event_type_breakdown = [("click", 2), ("console_log", 1)] ∧
      doc.message = some NO_EVENTS_HINT := by
  obtain ⟨doc, h1, h2, h3⟩ :=
    C7_metadata_only [sampleFile] goodId sampleRecording c7Opts (by decide)
  refine ⟨doc, h1, (h3 rfl).1, ?_, (h3 rfl).2.2.2.1⟩
  · rw [h2]
    decide

/-- Claim C8 counterexample: processing a dom_set_child_nodes event redacts a sensitive node (its value token becomes the redaction token and the node is marked), yet the analyzer reports zero masked events because the marker sits on the node, not on the event data dict the analyzer inspects, refuting the claim that every redacted event is counted. -/
theorem C8_counterexample :
    ((processEvents [c2GoodEvent]).headD {}).data.nodes.getD [] =
      [maskNodeAttributes c2GoodNode] ∧
    (maskNodeAttributes c2GoodNode).attributes =
      some ["x", "input[type=password]", "value", MASKED_TOKEN] ∧
    (maskNodeAttributes c2GoodNode).masked = true ∧
    (analyzeEvents (processEvents [c2GoodEvent])).masked_events = 0 := by decide

/-- Claim C8 (amended): over input events that carry no marker, the analyzer masked-event count equals the number of dom_attribute_modified events whose attribute name is sensitive - the only events the Masking Engine marks at the data level the analyzer inspects; dom_set_child_nodes events whose node snapshots were redacted are marked only inside the nodes and are not counted. -/
theorem C8_masked_count (events : List Event)
    (h : ∀ e ∈ events, e.data.masked = false) :
    (analyzeEvents (processEvents events)).masked_events =
      (events.filter attrMaskTriggered).length := by
  rw [analyzeEvents_masked_count]
  unfold processEvents
  rw [List.filter_map]
  rw [List.length_map]
  congr 1
  apply List.filter_congr
  intro e he
  show (processEvent e).data.masked = attrMaskTriggered e
  rw [processEvent_masked, h e he]
  simp

/-- Witness for C8: of one redacted attribute-modification event and one redacted snapshot event, exactly the former is counted. -/
theorem C8_witness :
    (analyzeEvents (processEvents [c1GoodEvent, c2GoodEvent])).masked_events = 1 := by
  have h := C8_masked_count [c1GoodEvent, c2GoodEvent] (by decide)
  rw [h]
  decide

/-- Claim C9 counterexample: two parsable stored documents without a start time make list() raise a TypeError from comparing None sort keys (the empty-string substitution never applies because the built entry always carries the start_time key), instead of returning the two entries sorted last, refuting the claimed empty-string fallback. -/
theorem C9_counterexample :
    (listEntry c9BadA).isSome = true ∧
    (listEntry c9BadB).isSome = true ∧
    listRecordings [c9BadA, c9BadB] = .error "TypeError" := by decide

/-- Claim C9 (amended): list() builds one entry (id, url, start time, event count, path) per stored document, skipping files that miss the json glob, exceed the 10 MiB read ceiling or fail to parse; when at most one entry remains or every entry has a start time, the result is a permutation of those entries sorted by start time descending, and when two or more entries remain and one lacks a start time the listing raises a TypeError. -/
theorem C9_listing (fs : FileSystem) :
    ((fs.filterMap listEntry).length ≤ 1 ∨
        (∀ e ∈ fs.filterMap listEntry, e.start_time ≠ none) →
      listRecordings fs = .ok (sortDescByStart (fs.filterMap listEntry)) ∧
      (sortDescByStart (fs.filterMap listEntry)).Perm (fs.filterMap listEntry) ∧
      (sortDescByStart (fs.filterMap listEntry)).Pairwise entryGe) ∧
    (2 ≤ (fs.filterMap listEntry).length →
      (∃ e ∈ fs.filterMap listEntry, e.start_time = none) →
      listRecordings fs = .error "TypeError") := by
  constructor
  · intro h
    refine ⟨?_, sortDescByStart_perm _, sortDescByStart_pairwise _⟩
    unfold listRecordings
    have hguard : (decide ((fs.filterMap listEntry).length ≥ 2) &&
        (fs.filterMap listEntry).any fun e => e.start_time.isNone) = false := by
      rcases h with h | h
      · have : decide ((fs.filterMap listEntry).length ≥ 2) = false := by
          simp
          omega
        simp [this]
      · have : ((fs.filterMap listEntry).any fun e => e.start_time.isNone) = false := by
          rw [List.any_eq_false]
          intro e he
          simp [Option.isNone_iff_eq_none]
          exact h e he
        simp [this]
    simp only [listRecordings]
    rw [hguard]
    simp
  · intro hlen ⟨e, he, hnone⟩
    unfold listRecordings
    have hguard : (decide ((fs.filterMap listEntry).length ≥ 2) &&
        (fs.filterMap listEntry).any fun x => x.start_time.isNone) = true := by
      rw [Bool.and_eq_true]
      constructor
      · simp
        omega
      · rw [List.any_eq_true]
        exact ⟨e, he, by simp [hnone]⟩
    simp only [listRecordings]
    rw [hguard]
    simp

/-- Witness for C9: two dated documents are listed newest-first, and adding an undated document to a dated one makes the listing raise. -/
theorem C9_witness :
    listRecordings [c9GoodA, c9GoodB] =
      .ok (sortDescByStart ([c9GoodA, c9GoodB].filterMap listEntry)) ∧
    (sortDescByStart ([c9GoodA, c9GoodB].filterMap listEntry)).map
        (fun e => e.start_time) =
      [some "2024-01-03T00:00:00", some "2024-01-02T00:00:00"] ∧
    listRecordings [c9GoodA, c9BadA] = .error "TypeError" := by
  refine ⟨((C9_listing [c9GoodA, c9GoodB]).1 (Or.inr (by decide))).1, by decide, ?_⟩
  exact (C9_listing [c9GoodA, c9BadA]).2 (by decide) (by decide)

/-- Claim C10 counterexample: the validator accepts the id of 36 hex characters followed by one newline, whose characters are not all hexadecimal digits and hyphens, refuting the stated characterization of accepted ids. -/
theorem C10_counterexample :
    validSessionId badId = true ∧
    badId.data.all isHexHyphen = false := by decide

/-- Claim C10 (amended): every validator-accepted session id consists of lowercase hex-or-hyphen characters optionally followed by one trailing newline; hence the file name "<sessionId>_<timestamp>.json" and the glob pattern "<sessionId>_*.json" built from it contain no path separator, the file name is never empty, "." or "..", and the name save actually writes is exactly that file name - so every touched path stays inside the recordings directory. -/
theorem C10_path_safety (s : String) (h : validSessionId s = true) :
    s.data.all (fun c => isHexHyphen c || c == '\n') = true ∧
    (∀ ts : String, tsOk ts = true →
      (fileNameOf s ts).data.all (fun c => !(c == '/')) = true ∧
      fileNameOf s ts ≠ "" ∧ fileNameOf s ts ≠ "." ∧ fileNameOf s ts ≠ "..") ∧
    (globPatternOf s).data.all (fun c => !(c == '/')) = true ∧
    (∀ (fs : FileSystem) (sd : Recording) (url : Option String) (ts iso fn : String)
      (fs2 : FileSystem), sd.session_id = some s → tsOk ts = true →
      saveRecording fs sd url ts iso = .ok (fn, fs2) → fn = fileNameOf s ts) := by
  have hchars := valid_chars s h
  rw [List.all_eq_true] at hchars
  have hslash : ∀ c ∈ s.data, (!(c == '/')) = true := by
    intro c hc
    simp [sid_char_ne_slash c (hchars c hc)]
  refine ⟨valid_chars s h, fun ts hts => ?_, ?_, ?_⟩
  · have hlen := valid_length s h
    have hdata : (fileNameOf s ts).data = s.data ++ "_".data ++ ts.data ++ ".json".data := by
      simp [fileNameOf, String.data_append]
    have hu : ("_" : String).length = 1 := rfl
    have hj : (".json" : String).length = 5 := rfl
    have hflen : (fileNameOf s ts).length = s.length + 1 + ts.length + 5 := by
      simp [fileNameOf, String.length_append, hu, hj]
    refine ⟨?_, ?_, ?_, ?_⟩
    · rw [List.all_eq_true, hdata]
      intro c hc
      rcases List.mem_append.mp hc with hc1 | hc2
      · rcases List.mem_append.mp hc1 with hc3 | hc4
        · rcases List.mem_append.mp hc3 with hc5 | hc6
          · exact hslash c hc5
          · simp at hc6
            simp [hc6]
        · rw [tsOk, List.all_eq_true] at hts
          simp [ts_char_ne_slash c (hts c hc4)]
      · fin_cases hc2 <;> decide
    · intro heq
      have hl2 := congrArg String.length heq
      rw [hflen] at hl2
      have hz : ("" : String).length = 0 := rfl
      rw [hz] at hl2
      omega
    · intro heq
      have hl2 := congrArg String.length heq
      rw [hflen] at hl2
      have hz : ("." : String).length = 1 := rfl
      rw [hz] at hl2
      omega
    · intro heq
      have hl2 := congrArg String.length heq
      rw [hflen] at hl2
      have hz : (".." : String).length = 2 := rfl
      rw [hz] at hl2
      omega
  · rw [List.all_eq_true, globPatternOf, String.data_append]
    intro c hc
    rcases List.mem_append.mp hc with hc1 | hc2
    · exact hslash c hc1
    · fin_cases hc2 <;> decide
  · intro fs sd url ts iso fn fs2 hsid hts hok
    have hne : s ≠ "" := by
      intro he
      rw [he] at h
      exact absurd h (by decide)
    unfold saveRecording at hok
    rw [hsid] at hok
    simp only [hne, if_false, h, Bool.not_true, Bool.false_eq_true] at hok
    by_cases hbig : recordingSize
        { session_id := some s, url := url, start_time := sd.start_time,
          end_time := sd.end_time, events := sd.events,
          saved_at := some iso, event_count := some sd.events.length } > 50 * 1024 * 1024
    · simp [hbig] at hok
    · simp [hbig] at hok
      exact hok.1.symm

/-- Witness for C10: the file name and glob pattern built from a valid 36-character id contain no separator and the file name is not a parent-directory segment. -/
theorem C10_witness :
    (fileNameOf goodId "20240101_000000").data.all (fun c => !(c == '/')) = true ∧
    fileNameOf goodId "20240101_000000" ≠ ".." ∧
    (globPatternOf goodId).data.all (fun c => !(c == '/')) = true := by
  have h := C10_path_safety goodId (by decide)
  exact ⟨(h.2.1 "20240101_000000" (by decide)).1,
    (h.2.1 "20240101_000000" (by decide)).2.2.2, h.2.2.1⟩

end SelRec
